import Mathlib

/-!
Verification of the elastic fetch-and-merge job orchestrator.

This file gives a shallow embedding, in Lean 4, of the core functions of the
repository (the data-fetcher worker `app/api/workers/data_fetcher.py` and the
request endpoint `cava_data/api/endpoints/data.py`), and proves or refutes the
specification claims about them.

Conventions of the embedding:
* Timestamps are integers counting seconds since the CF epoch, matching the
  `seconds since 1900-01-01` encoding the worker uses to build its time grid.
* Floating-point data values are rationals; the IEEE not-a-number sentinel is
  modelled by a dedicated constructor (`PyFloat.nan`), since the code only ever
  tests it for equality against the `-999999` placeholder.
* A dataset variable is a list of `(time, value)` samples; missing values after
  resampling are `Option.none`.
* Python exceptions are modelled by `Except Unit`; external failures that can
  interrupt the worker mid-job are injected through an explicit `failAt` field.
-/

/-- A Python float as seen by `_nan_to_nulls`: either the NaN sentinel or an
ordinary numeric value (modelled as a rational). -/
inductive PyFloat where
  | nan
  | val (q : ℚ)
deriving DecidableEq

/-- Embedding of `np.nan_to_num(values, nan=-999999)`: replaces the NaN
sentinel by the placeholder number `-999999`, leaving other entries alone. -/
def nan_to_num (values : List PyFloat) : List ℚ :=
  values.map (fun x =>
    match x with
    | PyFloat.nan => (-999999 : ℚ)
    | PyFloat.val q => q)

/-- Embedding of `_nan_to_nulls` (`data_fetcher.py` lines 23-26):
`np.where(arr == -999999, None, arr)` applied after `nan_to_num`, i.e. every
entry equal to `-999999` becomes `None` (here `Option.none`). -/
def nan_to_nulls (values : List PyFloat) : List (Option ℚ) :=
  (nan_to_num values).map (fun q => if q = -999999 then none else some q)

/-- The common time grid built by `_merge_datasets`:
`da.arange(*t_range)` over the encoded `[start, end]` seconds, i.e. the
integers `start_dt, start_dt + 1, ...` up to but excluding `end_dt`. -/
def timeGrid (t0 t1 : ℤ) : List ℤ :=
  (List.range (t1 - t0).toNat).map (fun n : ℕ => t0 + (n : ℤ))

/-- Embedding of `xr.Dataset.interp(time=new_time)` at one grid point with the
default `method='linear'`: a query time inside the native span is linearly
interpolated between the two bracketing native samples (an exact native time
returns that sample's value); a query outside the native span yields NaN,
modelled as `none`. -/
def interpAt : List (ℤ × ℚ) → ℤ → Option ℚ
  | [], _ => none
  | [(s0, v0)], t => if t = s0 then some v0 else none
  | (s0, v0) :: (s1, v1) :: rest, t =>
    if t < s0 then none
    else if t ≤ s1 then
      some (v0 + (v1 - v0) * (((t : ℚ) - (s0 : ℚ)) / ((s1 : ℚ) - (s0 : ℚ))))
    else interpAt ((s1, v1) :: rest) t

/-- The valid (non-NaN) points of a resampled variable, as `(time, value)`
pairs: the data scipy's `interp1d` is built from inside `interpolate_na`. -/
def validPoints (ts : List ℤ) (vs : List (Option ℚ)) : List (ℤ × ℚ) :=
  (ts.zip vs).filterMap (fun p => p.2.map (fun v => (p.1, v)))

/-- Nearest-neighbour lookup among valid points (scipy `interp1d` with
`kind='nearest'` and `fill_value='extrapolate'`): the value of the point whose
time is closest to the query, the earlier point winning ties. Returns `none`
only when there are no valid points at all. -/
def nearestValue (pts : List (ℤ × ℚ)) (t : ℤ) : Option ℚ :=
  match pts with
  | [] => none
  | p :: rest =>
    some ((rest.foldl
      (fun best q => if |q.1 - t| < |best.1 - t| then q else best) p).2)

/-- Embedding of `.interpolate_na(dim='time', method='nearest',
fill_value="extrapolate")` on one variable: entries that already have a value
are kept; NaN entries are filled with the nearest valid value (extending past
the ends). -/
def interpolate_na (ts : List ℤ) (vs : List (Option ℚ)) : List (Option ℚ) :=
  (ts.zip vs).map (fun p =>
    match p.2 with
    | some v => some v
    | none => nearestValue (validPoints ts vs) p.1)

/-- Embedding of `_interp_ds` (`data_fetcher.py` lines 146-151): resample one
variable onto the common grid with `ds.interp(time=new_time)` (default linear
method — the `method='nearest'` argument of `_interp_ds` is only forwarded to
`interpolate_na`), then nearest-fill the remaining gaps. -/
def interp_ds (samples : List (ℤ × ℚ)) (grid : List ℤ) : List (Option ℚ) :=
  interpolate_na grid (grid.map (interpAt samples))

/-- Resampling as the spec's words describe it (for comparison with
`interp_ds`): "each grid point is assigned the value of the nearest native
sample (nearest-neighbor interpolation against the dataset's native
timestamps)". -/
def specNearestResample (samples : List (ℤ × ℚ)) (grid : List ℤ) :
    List (Option ℚ) :=
  grid.map (fun t => nearestValue samples t)

/-- The merged dataset: a shared time coordinate and one resampled value
column per source dataset. -/
structure MergedDataset where
  time : List ℤ
  vars : List (List (Option ℚ))

/-- Embedding of `_merge_datasets` (`data_fetcher.py` lines 37-57): build the
one-second grid over the requested window, resample every dataset onto it with
`_interp_ds`, and merge; after `xr.merge` all variables share the grid as
their time coordinate. -/
def merge_datasets (dataList : List (List (ℤ × ℚ))) (start_dt end_dt : ℤ) :
    MergedDataset :=
  { time := timeGrid start_dt end_dt
    vars := dataList.map (fun s => interp_ds s (timeGrid start_dt end_dt)) }

/-- The sizing plan produced by `determine_workers`: the worker-count bounds
handed to `cluster.adapt`, and the per-worker memory/CPU requests written into
the pod specification (`memory_request` / `cpu_request`; the configured limits
are passed through unchanged as `memory_limit` / `cpu_limit`). -/
structure WorkerSpec where
  minWorkers : ℤ
  maxWorkers : ℤ
  k8sMem : ℚ
  k8sCpu : ℚ
deriving DecidableEq

/-- Embedding of `determine_workers` (`data_fetcher.py` lines 170-238):
`max_workers = int(np.ceil(max_mem_size / memory_limit))`,
`min_workers = int(np.ceil(max_workers / 10))`; memory and CPU requests start
at half the configured limits, and when the whole job fits under one worker's
memory limit the memory request is replaced by the job size and the CPU
request is halved again. -/
def determine_workers (max_mem_size memory_limit cpu_limit : ℚ) : WorkerSpec :=
  let maxWorkers : ℤ := ⌈max_mem_size / memory_limit⌉
  let minWorkers : ℤ := ⌈(maxWorkers : ℚ) / 10⌉
  let k8sMem : ℚ := memory_limit / 2
  let k8sCpu : ℚ := cpu_limit / 2
  if max_mem_size < memory_limit then
    { minWorkers := minWorkers, maxWorkers := maxWorkers,
      k8sMem := max_mem_size, k8sCpu := k8sCpu / 2 }
  else
    { minWorkers := minWorkers, maxWorkers := maxWorkers,
      k8sMem := k8sMem, k8sCpu := k8sCpu }

/-- The axis mapping handed to the worker: requested variable names for the
`x`, `y` and `z` axes (the request's `color` field arrives as `z`; an empty
string means the axis is unused). -/
structure AxisParams where
  x : String
  y : String
  z : String
deriving DecidableEq

/-- The rendering strategy chosen by `_plot_merged_dataset`. `rasterize` is
the datashader binned-aggregation switch passed to `hvplot.scatter` (also
returned to the caller as the `shaded` flag); `usesMeanAggregator` records
whether an explicit `datashader.mean(column=y)` aggregator is attached;
`colorColumn` is the synthetic colour-column name, and `columnFilter` the
columns kept from the plot dataframe. -/
structure PlotPlan where
  rasterize : Bool
  usesMeanAggregator : Bool
  colorColumn : Option String
  columnFilter : List String
deriving DecidableEq

/-- Embedding of the strategy selection of `_plot_merged_dataset`
(`data_fetcher.py` lines 60-129). `plot_params` renames the `z` axis to
`color`; `rasterize = len(merged.time) > shade_threshold`; the three branches
are: colour axis present (scatter keyed by x, y, colour, passing `rasterize`
through), rasterised two-axis plot (mean aggregator over y, synthetic third
column appended), or a plain blue scatter. -/
def plot_strategy (axis_params : AxisParams) (timeLen : ℕ)
    (shade_threshold : ℕ) : PlotPlan :=
  let rasterize : Bool := timeLen > shade_threshold
  let columnFilter := [axis_params.x, axis_params.y, axis_params.z].filter
    (fun v => v ≠ "")
  if axis_params.z ≠ "" then
    { rasterize := rasterize, usesMeanAggregator := false,
      colorColumn :=
        some (axis_params.x ++ "_" ++ axis_params.y ++ " " ++ axis_params.z),
      columnFilter := columnFilter }
  else if rasterize then
    { rasterize := true, usesMeanAggregator := true,
      colorColumn :=
        some (axis_params.x ++ "_" ++ axis_params.y ++ " " ++ axis_params.y),
      columnFilter := columnFilter ++
        [axis_params.x ++ "_" ++ axis_params.y ++ " " ++ axis_params.y] }
  else
    { rasterize := false, usesMeanAggregator := false,
      colorColumn := none, columnFilter := columnFilter }

/-- A Python value as it appears in the worker's result payload. -/
inductive PyVal where
  | none
  | num (q : ℚ)
  | str (s : String)
  | bool (b : Bool)
  | list (xs : List PyVal)
  | tuple (xs : List PyVal)
  | dict (kvs : List (String × PyVal))

/-- Python's `dct.get(k, dflt)` on an insertion-ordered dictionary. -/
def dctGet (d : List (String × PyVal)) (k : String) (dflt : PyVal) : PyVal :=
  match d.find? (fun p => p.1 = k) with
  | some p => p.2
  | Option.none => dflt

/-- Where an externally raised exception interrupts the `fetch` job, relative
to the cluster-provisioning step: `beforeProvision` models a failure while the
delayed datasets are resolved, `afterProvision` a failure in any later step
(zarr retrieval, validation, merge, or plotting). -/
inductive FailPoint where
  | beforeProvision
  | afterProvision
deriving DecidableEq

/-- The inputs and environment of one `fetch` job. `datasets` maps each
requested dataset id to its time-sliced data (`none` when the source resolves
to no data at all); `totalSizeGB` is the `max_mem_size` estimate in GB;
`dataThreshold` the `DATA_THRESHOLD` tunable; `finalDct` the column dataframe
produced by the external hvplot rendering; `failAt` injects an exception. -/
structure FetchEnv where
  datasets : List (String × Option (List (ℤ × ℚ)))
  startT : ℤ
  endT : ℤ
  axis : AxisParams
  dataThreshold : ℚ
  totalSizeGB : ℚ
  finalDct : List (String × PyVal)
  failAt : Option FailPoint

/-- Observable outcome of one `fetch` job: the returned value (or a
propagated exception, `Except.error`), whether an elastic pool was
provisioned, the `(minimum, maximum)` bounds passed to `cluster.adapt`, and
whether `client.close()` / `cluster.close()` were executed. -/
structure FetchOut where
  result : Except Unit (Option PyVal)
  provisioned : Bool
  poolMin : Option ℤ
  poolMax : Option ℤ
  clientClosed : Bool
  clusterClosed : Bool

/-- `data_count = len(merged.time)` as computed by `fetch`: the grid length
when more than one dataset was merged, otherwise the time length of the single
requested dataset. -/
def dataCountOf (env : FetchEnv) : ℕ :=
  if 1 < env.datasets.length then (timeGrid env.startT env.endT).length
  else ((env.datasets.head?.bind (fun p => p.2)).getD []).length

/-- The result value computed by the tail of `fetch` (`data_fetcher.py` lines
330-415): the two validation checks (a dataset with no data at all, then
datasets with zero time samples) and the empty-merge check each yield a null
result; otherwise the rendering output is packed into a one-element tuple
holding the `x`/`y`/`z`/`count`/`shaded` dictionary, with `z` falling back to
the synthetic colour column when the plot was shaded. -/
def renderResult (env : FetchEnv) : Option PyVal :=
  if env.datasets.any (fun p => p.2 = Option.none) then Option.none
  else if env.datasets.any (fun p => (p.2.getD []).length = 0) then Option.none
  else if dataCountOf env = 0 then Option.none
  else
    let plan := plot_strategy env.axis (dataCountOf env) 500000
    let x := dctGet env.finalDct env.axis.x (PyVal.list [])
    let y := dctGet env.finalDct env.axis.y (PyVal.list [])
    let z :=
      if env.axis.z ≠ "" then dctGet env.finalDct env.axis.z (PyVal.list [])
      else if plan.rasterize then
        match plan.colorColumn with
        | some c => dctGet env.finalDct c (PyVal.list [])
        | Option.none => PyVal.list []
      else PyVal.list []
    some (PyVal.tuple [PyVal.dict
      [("x", x), ("y", y), ("z", z),
       ("count", PyVal.num ((dataCountOf env : ℕ) : ℚ)),
       ("shaded", PyVal.bool plan.rasterize)]])

/-- Embedding of the control flow of `fetch` (`data_fetcher.py` lines
261-424). An elastic pool is provisioned exactly when
`max_mem_size > data_threshold`, with the bounds computed by
`determine_workers` (called with the default 16 GB / 2 CPU limits); the final
`client.close()` / `cluster.close()` calls are guarded only by `is not None`
and sit at function level with no try/finally, so a propagating exception
reaches the caller without executing them. -/
def fetch (env : FetchEnv) : FetchOut :=
  if env.failAt = some FailPoint.beforeProvision then
    { result := Except.error (), provisioned := false,
      poolMin := Option.none, poolMax := Option.none,
      clientClosed := false, clusterClosed := false }
  else
    let prov : Bool := env.dataThreshold < env.totalSizeGB
    let spec := determine_workers env.totalSizeGB 16 2
    let pmin : Option ℤ := if prov then some spec.minWorkers else Option.none
    let pmax : Option ℤ := if prov then some spec.maxWorkers else Option.none
    if env.failAt = some FailPoint.afterProvision then
      { result := Except.error (), provisioned := prov,
        poolMin := pmin, poolMax := pmax,
        clientClosed := false, clusterClosed := false }
    else
      { result := Except.ok (renderResult env), provisioned := prov,
        poolMin := pmin, poolMax := pmax,
        clientClosed := prov, clusterClosed := prov }

/-- Shared state of the deduplicating submission endpoint `request_data`
(`data.py` lines 226-252), restricted to one fingerprint: the Redis entry for
that fingerprint's cache key, a counter producing fresh celery task ids, the
number of jobs created so far, and the per-caller progress of two concurrent
callers A and B. `pcA`/`pcB` count the steps a caller has taken (0 = has not
read the cache yet, 1 = has read it, 2 = responded); `readA`/`readB` hold the
value the caller's `cache.get` returned; `resA`/`resB` the job id it
returned to its client. -/
structure DedupState where
  cache : Option ℕ
  nextId : ℕ
  jobsCreated : ℕ
  pcA : ℕ
  pcB : ℕ
  readA : Option ℕ
  readB : Option ℕ
  resA : Option ℕ
  resB : Option ℕ
deriving DecidableEq

/-- Both callers start before their `cache.get`, with an empty cache. -/
def initState : DedupState :=
  { cache := Option.none, nextId := 0, jobsCreated := 0,
    pcA := 0, pcB := 0,
    readA := Option.none, readB := Option.none,
    resA := Option.none, resB := Option.none }

/-- One step of caller A in `request_data`: first `await cache.get(key)`
(a suspension point, so another request handler may run in between), then —
based solely on the value read — either return the cached id, or create a new
job with `apply_async` and `cache.set` its id. The create-and-set is modelled
as a single step, which is generous to the code: even so the check and the
set of different callers can interleave. -/
def stepA (s : DedupState) : DedupState :=
  if s.pcA = 0 then { s with readA := s.cache, pcA := 1 }
  else if s.pcA = 1 then
    match s.readA with
    | some id => { s with resA := some id, pcA := 2 }
    | Option.none =>
      { s with
        resA := some s.nextId
        cache := some s.nextId
        nextId := s.nextId + 1
        jobsCreated := s.jobsCreated + 1
        pcA := 2 }
  else s

/-- One step of caller B; symmetric to `stepA`. -/
def stepB (s : DedupState) : DedupState :=
  if s.pcB = 0 then { s with readB := s.cache, pcB := 1 }
  else if s.pcB = 1 then
    match s.readB with
    | some id => { s with resB := some id, pcB := 2 }
    | Option.none =>
      { s with
        resB := some s.nextId
        cache := some s.nextId
        nextId := s.nextId + 1
        jobsCreated := s.jobsCreated + 1
        pcB := 2 }
  else s

/-- Run a schedule: `false` lets caller A take its next step, `true` caller
B. -/
def runSched : List Bool → DedupState → DedupState
  | [], s => s
  | b :: rest, s => runSched rest (if b then stepB s else stepA s)

/-- A job over the default 50 GB threshold (so a pool is provisioned) in
which an exception is raised at a step after provisioning. -/
def envC5 : FetchEnv :=
  { datasets := [("a", some [(0, 1)])]
    startT := 0
    endT := 2
    axis := { x := "time", y := "temp", z := "" }
    dataThreshold := 50
    totalSizeGB := 100
    finalDct := []
    failAt := some FailPoint.afterProvision }

/-! ## Helper lemmas -/

lemma zip_map_self {α β : Type} (f : α → β) :
    ∀ l : List α, l.zip (l.map f) = l.map (fun a => (a, f a))
  | [] => rfl
  | a :: t => by simp [List.zip_cons_cons, zip_map_self f t]

lemma interp_ds_eq_map (samples : List (ℤ × ℚ)) (grid : List ℤ) :
    interp_ds samples grid =
      grid.map (fun t =>
        match interpAt samples t with
        | some q => some q
        | Option.none =>
          nearestValue (validPoints grid (grid.map (interpAt samples))) t) := by
  unfold interp_ds interpolate_na
  rw [zip_map_self, List.map_map]
  rfl

lemma validPoints_map_ne_nil (grid : List ℤ) (f : ℤ → Option ℚ)
    (h : ∃ t ∈ grid, (f t).isSome = true) :
    validPoints grid (grid.map f) ≠ [] := by
  obtain ⟨t, ht, hs⟩ := h
  obtain ⟨v, hv⟩ := Option.isSome_iff_exists.mp hs
  unfold validPoints
  rw [zip_map_self]
  rw [List.filterMap_map]
  apply List.ne_nil_of_mem (a := (t, v))
  exact List.mem_filterMap.mpr ⟨t, ht, by simp [hv]⟩

lemma nearestValue_isSome (pts : List (ℤ × ℚ)) (t : ℤ) (h : pts ≠ []) :
    (nearestValue pts t).isSome = true := by
  cases pts with
  | nil => exact absurd rfl h
  | cons p rest => simp [nearestValue]

lemma interp_ds_total (samples : List (ℤ × ℚ)) (grid : List ℤ)
    (h : ∃ t ∈ grid, (interpAt samples t).isSome = true) :
    ∀ v ∈ interp_ds samples grid, v.isSome = true := by
  intro v hv
  rw [interp_ds_eq_map] at hv
  obtain ⟨t, _, rfl⟩ := List.mem_map.mp hv
  cases hq : interpAt samples t with
  | some q => simp [hq]
  | none =>
    simp only [hq]
    exact nearestValue_isSome _ _ (validPoints_map_ne_nil grid _ h)

lemma interp_ds_length (samples : List (ℤ × ℚ)) (grid : List ℤ) :
    (interp_ds samples grid).length = grid.length := by
  rw [interp_ds_eq_map, List.length_map]

lemma mem_timeGrid (t0 t1 t : ℤ) :
    t ∈ timeGrid t0 t1 ↔ t0 ≤ t ∧ t < t1 := by
  unfold timeGrid
  simp only [List.mem_map, List.mem_range]
  constructor
  · rintro ⟨i, hi, rfl⟩
    omega
  · intro h
    exact ⟨(t - t0).toNat, by omega, by omega⟩

lemma pairwise_timeGrid (t0 t1 : ℤ) :
    (timeGrid t0 t1).Pairwise (· < ·) := by
  unfold timeGrid
  refine List.Pairwise.map _ (fun a b h => ?_) (List.pairwise_lt_range _)
  show t0 + (a : ℤ) < t0 + (b : ℤ)
  omega

lemma timeGrid_step (t0 t1 : ℤ) (i : ℕ) (h : i + 1 < (timeGrid t0 t1).length) :
    (timeGrid t0 t1).get ⟨i + 1, h⟩ =
      (timeGrid t0 t1).get ⟨i, Nat.lt_of_succ_lt h⟩ + 1 := by
  unfold timeGrid at *
  simp only [List.get_eq_getElem, List.getElem_map, List.getElem_range]
  push_cast
  ring

/-! ## C1 — merge time-grid invariant -/

/-- C1, counterexample. The claim says the merged time coordinate "spans
exactly `[start_time, end_time]`", but `_merge_datasets` builds it with
`da.arange`, which excludes the upper bound: merging over the window `[0, 2]`
yields the time coordinate `[0, 1]`, which does not contain the requested
`end_time`. -/
theorem merge_window_end_excluded :
    (merge_datasets [[(0, 5)]] 0 2).time = [0, 1] ∧
    (2 : ℤ) ∉ (merge_datasets [[(0, 5)]] 0 2).time := by decide

/-- C1, amended. After merging datasets over `[t0, t1]`, the merged time
coordinate is strictly increasing with no duplicates, consists of exactly the
integer seconds of the half-open window `[t0, t1)` in one-second steps, and —
provided each dataset's native samples give the interpolation a value at at
least one grid point — every variable carries a non-null value at every point
of that grid. -/
theorem merge_time_grid_invariant (t0 t1 : ℤ) (dataList : List (List (ℤ × ℚ)))
    (_h01 : t0 < t1)
    (hall : ∀ s ∈ dataList, ∃ t ∈ timeGrid t0 t1,
      (interpAt s t).isSome = true) :
    ((merge_datasets dataList t0 t1).time.Pairwise (· < ·)) ∧
    (∀ t : ℤ, t ∈ (merge_datasets dataList t0 t1).time ↔ t0 ≤ t ∧ t < t1) ∧
    (∀ i : ℕ, ∀ h : i + 1 < (merge_datasets dataList t0 t1).time.length,
      (merge_datasets dataList t0 t1).time.get ⟨i + 1, h⟩ =
        (merge_datasets dataList t0 t1).time.get
          ⟨i, Nat.lt_of_succ_lt h⟩ + 1) ∧
    (∀ col ∈ (merge_datasets dataList t0 t1).vars,
      col.length = (merge_datasets dataList t0 t1).time.length ∧
      ∀ v ∈ col, v.isSome = true) := by
  refine ⟨pairwise_timeGrid t0 t1, fun t => mem_timeGrid t0 t1 t,
    fun i h => timeGrid_step t0 t1 i h, ?_⟩
  intro col hcol
  obtain ⟨s, hs, rfl⟩ := List.mem_map.mp hcol
  exact ⟨interp_ds_length s _, interp_ds_total s _ (hall s hs)⟩

/-- Witness for `merge_time_grid_invariant`: the window `[0, 2)` with one
dataset holding the single sample `(0, 5)`. -/
theorem merge_time_grid_invariant_witness :
    ((merge_datasets [[(0, 5)]] 0 2).time.Pairwise (· < ·)) ∧
    (∀ t : ℤ, t ∈ (merge_datasets [[(0, 5)]] 0 2).time ↔ 0 ≤ t ∧ t < 2) ∧
    (∀ i : ℕ, ∀ h : i + 1 < (merge_datasets [[(0, 5)]] 0 2).time.length,
      (merge_datasets [[(0, 5)]] 0 2).time.get ⟨i + 1, h⟩ =
        (merge_datasets [[(0, 5)]] 0 2).time.get
          ⟨i, Nat.lt_of_succ_lt h⟩ + 1) ∧
    (∀ col ∈ (merge_datasets [[(0, 5)]] 0 2).vars,
      col.length = (merge_datasets [[(0, 5)]] 0 2).time.length ∧
      ∀ v ∈ col, v.isSome = true) :=
  merge_time_grid_invariant 0 2 [[(0, 5)]] (by decide) (by decide)

/-! ## C3 — resampling onto the common grid -/

/-- C3, counterexample. The claim says each grid point is assigned the
value of the nearest native sample. For the native samples `(0, 0)` and
`(3, 6)` on the grid over `[0, 4)`, `_interp_ds` produces `[0, 2, 4, 6]`
(linear interpolation: `ds.interp` is called without a method argument, so it
uses the default `linear`, not `nearest`), while nearest-neighbour resampling
would produce `[0, 0, 6, 6]`; at grid point `1` the code's value `2` is not
the value of any native sample. -/
theorem interp_resample_not_nearest :
    interp_ds [(0, 0), (3, 6)] (timeGrid 0 4) =
      [some 0, some 2, some 4, some 6] ∧
    specNearestResample [(0, 0), (3, 6)] (timeGrid 0 4) =
      [some 0, some 0, some 6, some 6] ∧
    interp_ds [(0, 0), (3, 6)] (timeGrid 0 4) ≠
      specNearestResample [(0, 0), (3, 6)] (timeGrid 0 4) := by
  have hg : timeGrid 0 4 = [0, 1, 2, 3] := by decide
  have h1 : interp_ds [(0, 0), (3, 6)] (timeGrid 0 4) =
      [some 0, some 2, some 4, some 6] := by
    rw [hg]
    simp [interp_ds, interpolate_na, validPoints, interpAt] <;> norm_num
  have h2 : specNearestResample [(0, 0), (3, 6)] (timeGrid 0 4) =
      [some 0, some 0, some 6, some 6] := by
    rw [hg]
    simp [specNearestResample, nearestValue]
  refine ⟨h1, h2, ?_⟩
  rw [h1, h2]
  decide

/-- C3, amended. For every dataset resampled onto the common grid, each
grid point inside the dataset's native time bounds is assigned the *linear*
interpolation of the two bracketing native samples (`ds.interp` default
method); every remaining gap — the grid points outside the native bounds —
is filled with the value of the nearest filled point
(`interpolate_na(method='nearest', fill_value="extrapolate")`), so that,
provided the interpolation yields a value at at least one grid point, every
grid point receives a value. -/
theorem interp_ds_characterization (samples : List (ℤ × ℚ)) (grid : List ℤ)
    (h : ∃ t ∈ grid, (interpAt samples t).isSome = true) :
    (∀ v ∈ interp_ds samples grid, v.isSome = true) ∧
    (∀ p ∈ grid.zip (interp_ds samples grid), ∀ q : ℚ,
      interpAt samples p.1 = some q → p.2 = some q) ∧
    (∀ p ∈ grid.zip (interp_ds samples grid),
      interpAt samples p.1 = Option.none →
      p.2 = nearestValue (validPoints grid (grid.map (interpAt samples)))
        p.1) := by
  refine ⟨interp_ds_total samples grid h, ?_, ?_⟩
  · intro p hp q hq
    rw [interp_ds_eq_map, zip_map_self] at hp
    obtain ⟨t, _, rfl⟩ := List.mem_map.mp hp
    simp only at hq ⊢
    rw [hq]
  · intro p hp hq
    rw [interp_ds_eq_map, zip_map_self] at hp
    obtain ⟨t, _, rfl⟩ := List.mem_map.mp hp
    simp only at hq ⊢
    rw [hq]

/-- Witness for `interp_ds_characterization`: one native sample `(0, 1)` on
the one-point grid over `[0, 1)`. -/
theorem interp_ds_characterization_witness :
    (∀ v ∈ interp_ds [(0, 1)] (timeGrid 0 1), v.isSome = true) ∧
    (∀ p ∈ (timeGrid 0 1).zip (interp_ds [(0, 1)] (timeGrid 0 1)), ∀ q : ℚ,
      interpAt [(0, 1)] p.1 = some q → p.2 = some q) ∧
    (∀ p ∈ (timeGrid 0 1).zip (interp_ds [(0, 1)] (timeGrid 0 1)),
      interpAt [(0, 1)] p.1 = Option.none →
      p.2 = nearestValue
        (validPoints (timeGrid 0 1) ((timeGrid 0 1).map (interpAt [(0, 1)])))
        p.1) :=
  interp_ds_characterization [(0, 1)] (timeGrid 0 1) (by decide)

/-! ## C4 — null sanitisation -/

/-- C4, counterexample. The claim says only not-a-number entries become
null and every other numeric value is unaltered; but `_nan_to_nulls` uses
`-999999` as an in-band placeholder, so a genuine data value `-999999` — which
is not NaN — is also converted to null. -/
theorem nan_to_nulls_sentinel_collision :
    nan_to_nulls [PyFloat.val (-999999), PyFloat.val 1] =
      [Option.none, some 1] ∧
    PyFloat.val (-999999) ≠ PyFloat.nan := by decide

/-- C4, amended. The null-sanitisation step maps exactly the not-a-number
entries *and any entry equal to the placeholder `-999999`* to explicit nulls,
leaves every other numeric value unaltered, and drops no entry from the
sequence. -/
theorem nan_to_nulls_spec (l : List PyFloat) :
    (nan_to_nulls l).length = l.length ∧
    ∀ p ∈ l.zip (nan_to_nulls l),
      (p.1 = PyFloat.nan → p.2 = Option.none) ∧
      (p.1 = PyFloat.val (-999999) → p.2 = Option.none) ∧
      (∀ q : ℚ, p.1 = PyFloat.val q → q ≠ -999999 → p.2 = some q) := by
  have hmap : nan_to_nulls l = l.map (fun x =>
      match x with
      | PyFloat.nan => (Option.none : Option ℚ)
      | PyFloat.val q => if q = -999999 then Option.none else some q) := by
    unfold nan_to_nulls nan_to_num
    rw [List.map_map]
    refine List.map_congr_left ?_
    intro x _
    cases x with
    | nan => simp
    | val q => rfl
  constructor
  · rw [hmap, List.length_map]
  · intro p hp
    rw [hmap, zip_map_self] at hp
    obtain ⟨x, _, rfl⟩ := List.mem_map.mp hp
    cases x with
    | nan => refine ⟨fun _ => rfl, by simp, by simp⟩
    | val q =>
      refine ⟨by simp, ?_, ?_⟩
      · intro hq
        have : q = -999999 := by injection hq
        simp [this]
      · intro q' hq' hne
        have : q = q' := by injection hq'
        subst this
        simp [hne]

/-- Witness for `nan_to_nulls_spec`: the list `[NaN, 7]` keeps its length and
the non-placeholder value `7` passes through unaltered. -/
theorem nan_to_nulls_spec_witness :
    (nan_to_nulls [PyFloat.nan, PyFloat.val 7]).length = 2 ∧
    (((PyFloat.val 7, some (7 : ℚ))).2 = some 7) :=
  ⟨(nan_to_nulls_spec [PyFloat.nan, PyFloat.val 7]).1,
    ((nan_to_nulls_spec [PyFloat.nan, PyFloat.val 7]).2
      (PyFloat.val 7, some 7) (by decide)).2.2 7 rfl (by norm_num)⟩

/-! ## C6 — sizing plan validity -/

/-- C6, counterexample. The claim says the estimator produces
`min_workers ≥ 1` and `max_workers ≥ 1` for every non-negative size; but at
total size `0` it computes `max_workers = ceil(0/16) = 0` and
`min_workers = ceil(0/10) = 0`. -/
theorem determine_workers_zero_size :
    (determine_workers 0 16 2).maxWorkers = 0 ∧
    (determine_workers 0 16 2).minWorkers = 0 ∧
    ¬ 1 ≤ (determine_workers 0 16 2).maxWorkers := by
  norm_num [determine_workers]

/-- C6, amended. For every *positive* total size (and positive configured
memory limit, non-negative CPU limit), the estimator returns a plan with
`min_workers ≥ 1`, `max_workers ≥ 1`, `min_workers ≤ max_workers`, and
non-negative memory and CPU requests; at size `0` both worker bounds are `0`
(see `determine_workers_zero_size`). -/
theorem determine_workers_valid (s limit cpu : ℚ)
    (hs : 0 < s) (hl : 0 < limit) (hc : 0 ≤ cpu) :
    1 ≤ (determine_workers s limit cpu).minWorkers ∧
    1 ≤ (determine_workers s limit cpu).maxWorkers ∧
    (determine_workers s limit cpu).minWorkers ≤
      (determine_workers s limit cpu).maxWorkers ∧
    0 ≤ (determine_workers s limit cpu).k8sMem ∧
    0 ≤ (determine_workers s limit cpu).k8sCpu := by
  have hmax : 1 ≤ ⌈s / limit⌉ := by
    have : (0 : ℚ) < s / limit := div_pos hs hl
    exact Int.ceil_pos.mpr this
  have hmin : 1 ≤ ⌈((⌈s / limit⌉ : ℤ) : ℚ) / 10⌉ := by
    have h10 : (0 : ℚ) < ((⌈s / limit⌉ : ℤ) : ℚ) / 10 := by
      apply div_pos _ (by norm_num)
      exact_mod_cast hmax
    exact Int.ceil_pos.mpr h10
  have hle : ⌈((⌈s / limit⌉ : ℤ) : ℚ) / 10⌉ ≤ ⌈s / limit⌉ := by
    have h0 : (0 : ℚ) ≤ ((⌈s / limit⌉ : ℤ) : ℚ) := by
      have : (0 : ℤ) ≤ ⌈s / limit⌉ := by omega
      exact_mod_cast this
    calc ⌈((⌈s / limit⌉ : ℤ) : ℚ) / 10⌉
        ≤ ⌈((⌈s / limit⌉ : ℤ) : ℚ)⌉ :=
          Int.ceil_le_ceil (div_le_self h0 (by norm_num))
      _ = ⌈s / limit⌉ := Int.ceil_intCast _
  unfold determine_workers
  split_ifs with hlt
  · exact ⟨hmin, hmax, hle, le_of_lt hs, by positivity⟩
  · exact ⟨hmin, hmax, hle, by positivity, by positivity⟩

/-- Witness for `determine_workers_valid`: size 32 GB against the default
16 GB / 2 CPU limits. -/
theorem determine_workers_valid_witness :
    1 ≤ (determine_workers 32 16 2).minWorkers ∧
    1 ≤ (determine_workers 32 16 2).maxWorkers ∧
    (determine_workers 32 16 2).minWorkers ≤
      (determine_workers 32 16 2).maxWorkers ∧
    0 ≤ (determine_workers 32 16 2).k8sMem ∧
    0 ≤ (determine_workers 32 16 2).k8sCpu :=
  determine_workers_valid 32 16 2 (by norm_num) (by norm_num) (by norm_num)

/-! ## C8 — per-worker resource requests -/

/-- C8, counterexample. The claim says that when the whole job fits under
one worker's memory limit both requests are halved again, which would make
the memory request `16/2/2 = 4` for a 10 GB job against the 16 GB limit; the
code instead sets the memory request to the job size itself, `10`. -/
theorem determine_workers_small_job_memory :
    (determine_workers 10 16 2).k8sMem = 10 ∧
    (determine_workers 10 16 2).k8sMem ≠ 16 / 2 / 2 := by
  norm_num [determine_workers]

/-- C8, amended. The memory request is half the configured limit, except
that when the whole job fits under one worker's memory limit it is replaced
by the job's total size; the CPU request is half the configured limit, halved
again exactly when the job fits under one worker's memory limit. -/
theorem determine_workers_requests (s limit cpu : ℚ) (hc : 0 < cpu) :
    (determine_workers s limit cpu).k8sMem =
      (if s < limit then s else limit / 2) ∧
    ((determine_workers s limit cpu).k8sCpu = cpu / 2 / 2 ↔ s < limit) := by
  unfold determine_workers
  split_ifs with hlt
  · simp [hlt]
  · refine ⟨by simp [hlt], ?_, ?_⟩
    · intro heq
      exfalso
      have : cpu = 0 := by linarith
      exact absurd this (by linarith)
    · exact fun h2 => absurd h2 hlt

/-- Witness for `determine_workers_requests`: a 10 GB job against the default
16 GB / 2 CPU limits. -/
theorem determine_workers_requests_witness :
    (determine_workers 10 16 2).k8sMem =
      (if (10 : ℚ) < 16 then (10 : ℚ) else 16 / 2) ∧
    ((determine_workers 10 16 2).k8sCpu = 2 / 2 / 2 ↔ (10 : ℚ) < 16) :=
  determine_workers_requests 10 16 2 (by norm_num)

/-! ## C7 — rendering strategy when a colour axis is mapped -/

/-- C7, counterexample. The claim says a non-empty colour axis always
yields a point-wise scatter with no binned aggregation, regardless of the
shading threshold; but `_plot_merged_dataset` passes
`rasterize = len(merged.time) > shade_threshold` straight into the colour
branch, so with 500001 time samples against the default threshold of 500000
the scatter *is* rasterised (datashader binned aggregation), while the same
axes with 10 samples are not. -/
theorem plot_color_branch_rasterizes :
    (plot_strategy { x := "time", y := "temp", z := "sal" }
      500001 500000).rasterize = true ∧
    (plot_strategy { x := "time", y := "temp", z := "sal" }
      10 500000).rasterize = false := by decide

/-- C7, amended. When the colour axis is non-empty the strategy is a
scatter keyed by `(x, y, color)` — no explicit mean aggregator is attached and
the synthetic colour column `"x_y color"` is used — but the scatter is
rasterised (binned) exactly when the number of time samples exceeds the
shading threshold, and the `rasterize` flag (returned as `shaded`) records
that. -/
theorem plot_color_branch (axis : AxisParams) (timeLen threshold : ℕ)
    (h : axis.z ≠ "") :
    (plot_strategy axis timeLen threshold).usesMeanAggregator = false ∧
    (plot_strategy axis timeLen threshold).colorColumn =
      some (axis.x ++ "_" ++ axis.y ++ " " ++ axis.z) ∧
    ((plot_strategy axis timeLen threshold).rasterize = true ↔
      timeLen > threshold) := by
  unfold plot_strategy
  simp [h]

/-- Witness for `plot_color_branch`: colour axis `"sal"`, 500001 samples,
threshold 500000. -/
theorem plot_color_branch_witness :
    (plot_strategy { x := "time", y := "temp", z := "sal" }
      500001 500000).usesMeanAggregator = false ∧
    (plot_strategy { x := "time", y := "temp", z := "sal" }
      500001 500000).colorColumn = some ("time" ++ "_" ++ "temp" ++ " " ++ "sal") ∧
    ((plot_strategy { x := "time", y := "temp", z := "sal" }
      500001 500000).rasterize = true ↔ 500001 > 500000) :=
  plot_color_branch { x := "time", y := "temp", z := "sal" } 500001 500000
    (by decide)

/-! ## C9 — threshold gating of the elastic pool -/

lemma fetch_pool_fields (env : FetchEnv)
    (h : env.failAt ≠ some FailPoint.beforeProvision) :
    (fetch env).provisioned = decide (env.dataThreshold < env.totalSizeGB) ∧
    (fetch env).poolMin = (if env.dataThreshold < env.totalSizeGB
      then some (determine_workers env.totalSizeGB 16 2).minWorkers
      else Option.none) ∧
    (fetch env).poolMax = (if env.dataThreshold < env.totalSizeGB
      then some (determine_workers env.totalSizeGB 16 2).maxWorkers
      else Option.none) := by
  unfold fetch
  rw [if_neg h]
  by_cases h2 : env.failAt = some FailPoint.afterProvision <;> simp [h2]

/-- C9. A job whose total estimated size does not exceed the configured
data-size threshold requests no elastic pool (no adapt bounds are passed, no
cluster or client exists); only when the size strictly exceeds the threshold
is a pool provisioned, and then with the `(min_workers, max_workers)` bounds
computed by `determine_workers` under the default 16 GB / 2 CPU limits. -/
theorem fetch_threshold_gates_pool (env : FetchEnv)
    (h : env.failAt ≠ some FailPoint.beforeProvision) :
    (env.totalSizeGB ≤ env.dataThreshold →
      (fetch env).provisioned = false ∧
      (fetch env).poolMin = Option.none ∧
      (fetch env).poolMax = Option.none) ∧
    (env.dataThreshold < env.totalSizeGB →
      (fetch env).provisioned = true ∧
      (fetch env).poolMin =
        some (determine_workers env.totalSizeGB 16 2).minWorkers ∧
      (fetch env).poolMax =
        some (determine_workers env.totalSizeGB 16 2).maxWorkers) := by
  obtain ⟨h1, h2, h3⟩ := fetch_pool_fields env h
  constructor
  · intro hle
    have hnot : ¬ env.dataThreshold < env.totalSizeGB := not_lt.mpr hle
    rw [h1, h2, h3]
    simp [hnot]
  · intro hlt
    rw [h1, h2, h3]
    simp [hlt]

/-- Witness for `fetch_threshold_gates_pool`: a 1 GB job and a 100 GB job
against the default 50 GB threshold. -/
theorem fetch_threshold_gates_pool_witness :
    (fetch
      { datasets := [("a", some [(0, 1)])]
        startT := 0
        endT := 2
        axis := { x := "time", y := "temp", z := "" }
        dataThreshold := 50
        totalSizeGB := 1
        finalDct := []
        failAt := Option.none }).provisioned = false ∧
    (fetch
      { datasets := [("a", some [(0, 1)])]
        startT := 0
        endT := 2
        axis := { x := "time", y := "temp", z := "" }
        dataThreshold := 50
        totalSizeGB := 100
        finalDct := []
        failAt := Option.none }).provisioned = true :=
  ⟨((fetch_threshold_gates_pool _ (by simp)).1 (by norm_num)).1,
    ((fetch_threshold_gates_pool _ (by simp)).2 (by norm_num)).1⟩

/-! ## C5 — pool teardown on every exit path -/

/-- C5, failing execution. `fetch` wraps none of its work in try/finally:
the `client.close()` / `cluster.close()` calls sit at the end of the function
body, so when a job that provisioned an elastic pool raises an exception at
any later step, the exception propagates and neither close call runs — the
pool is not torn down, contradicting "torn down on every exit path". -/
theorem fetch_exception_skips_teardown :
    (fetch envC5).provisioned = true ∧
    (fetch envC5).result = Except.error () ∧
    (fetch envC5).clientClosed = false ∧
    (fetch envC5).clusterClosed = false :=
  ⟨rfl, rfl, rfl, rfl⟩

/-- On every non-exception exit path — success or a null-result validation
failure — the close calls do run, exactly when a pool was provisioned. -/
lemma fetch_no_exception_teardown (env : FetchEnv)
    (h : env.failAt = Option.none) :
    (fetch env).clientClosed = (fetch env).provisioned ∧
    (fetch env).clusterClosed = (fetch env).provisioned := by
  unfold fetch
  simp [h]

/-! ## C10 — shape of the success result -/

/-- C10. When a fetch job passes validation and reaches the rendering
step, the value it returns is a one-element tuple (`result = ({...},)` — note
the trailing comma in the source) whose single element is the result
dictionary with keys `x`, `y`, `z`, `count`, `shaded`, in that order — not
the dictionary itself. -/
theorem fetch_success_returns_singleton_tuple (env : FetchEnv)
    (h0 : env.failAt = Option.none)
    (h1 : env.datasets.any (fun p => p.2 = Option.none) = false)
    (h2 : env.datasets.any (fun p => (p.2.getD []).length = 0) = false)
    (h3 : ¬ dataCountOf env = 0) :
    ∃ kvs : List (String × PyVal),
      (fetch env).result = Except.ok (some (PyVal.tuple [PyVal.dict kvs])) ∧
      kvs.map Prod.fst = ["x", "y", "z", "count", "shaded"] := by
  have hres : (fetch env).result = Except.ok (renderResult env) := by
    unfold fetch
    simp [h0]
  refine ⟨[("x", dctGet env.finalDct env.axis.x (PyVal.list [])),
    ("y", dctGet env.finalDct env.axis.y (PyVal.list [])),
    ("z",
      if env.axis.z ≠ "" then dctGet env.finalDct env.axis.z (PyVal.list [])
      else if (plot_strategy env.axis (dataCountOf env) 500000).rasterize then
        (match (plot_strategy env.axis (dataCountOf env) 500000).colorColumn
          with
        | some c => dctGet env.finalDct c (PyVal.list [])
        | Option.none => PyVal.list [])
      else PyVal.list []),
    ("count", PyVal.num ((dataCountOf env : ℕ) : ℚ)),
    ("shaded",
      PyVal.bool (plot_strategy env.axis (dataCountOf env) 500000).rasterize)],
    ?_, rfl⟩
  rw [hres]
  unfold renderResult
  rw [if_neg (by rw [h1]; exact Bool.false_ne_true),
    if_neg (by rw [h2]; exact Bool.false_ne_true), if_neg h3]

/-- Witness for `fetch_success_returns_singleton_tuple`: a single one-sample
dataset, below the pool threshold, with no injected exception. -/
theorem fetch_success_returns_singleton_tuple_witness :
    ∃ kvs : List (String × PyVal),
      (fetch
        { datasets := [("a", some [(0, 1)])]
          startT := 0
          endT := 2
          axis := { x := "time", y := "temp", z := "" }
          dataThreshold := 50
          totalSizeGB := 1
          finalDct := []
          failAt := Option.none }).result =
        Except.ok (some (PyVal.tuple [PyVal.dict kvs])) ∧
      kvs.map Prod.fst = ["x", "y", "z", "count", "shaded"] :=
  fetch_success_returns_singleton_tuple _ rfl (by decide) (by decide)
    (by decide)

/-! ## C2 — deduplication under concurrency -/

/-- C2, failing execution. `request_data` performs `await cache.get` and,
on a miss, a separate `apply_async` + `cache.set`: the check and the set are
two operations, not one atomic check-and-set. Under the interleaving
A.get, B.get, A.create+set, B.create+set of two concurrent submissions with
the same fingerprint, both callers see a cache miss: two jobs are created and
the callers receive different job ids. -/
theorem dedup_race_creates_two_jobs :
    (runSched [false, true, false, true] initState).jobsCreated = 2 ∧
    (runSched [false, true, false, true] initState).resA = some 0 ∧
    (runSched [false, true, false, true] initState).resB = some 1 ∧
    (runSched [false, true, false, true] initState).resA ≠
      (runSched [false, true, false, true] initState).resB := by decide

/-- When the two submissions do not interleave (each completes before the
next begins), a single job is created and both callers receive its id — the
race window is the only failure mode. -/
lemma dedup_sequential_single_job :
    (runSched [false, false, true, true] initState).jobsCreated = 1 ∧
    (runSched [false, false, true, true] initState).resA = some 0 ∧
    (runSched [false, false, true, true] initState).resB = some 0 := by decide
